import Mathlib

/-!
Shallow embedding of the vital-sign classification and trend-analysis core of
the `PredictiveAnalytics` class of this repository.  Numeric readings are
modelled as rationals (the source manipulates ordinary JS numbers with exact
decimal literals); the string labels returned by the source are kept as
`String`.  Each definition mirrors one source function or object literal.
-/

/-- Band classification for blood pressure, mirroring `classifyBloodPressure`. -/
def classifyBloodPressure (systolic diastolic : ℚ) : String :=
  if systolic ≥ 180 ∨ diastolic ≥ 120 then "crisis"
  else if systolic ≥ 130 ∨ diastolic ≥ 80 then "high"
  else if systolic ≥ 120 ∧ systolic < 130 ∧ diastolic < 80 then "elevated"
  else "normal"

/-- Band classification for heart rate, mirroring `classifyHeartRate`. -/
def classifyHeartRate (heartRate : ℚ) : String :=
  if heartRate < 60 then "bradycardia"
  else if heartRate > 100 then "tachycardia"
  else "normal"

/-- Band classification for temperature, mirroring `classifyTemperature`. -/
def classifyTemperature (temperature : ℚ) : String :=
  if temperature ≥ 103.1 then "highFever"
  else if temperature ≥ 99.1 then "fever"
  else "normal"

/-- Band classification for oxygen saturation, mirroring
`classifyOxygenSaturation`. -/
def classifyOxygenSaturation (spo2 : ℚ) : String :=
  if spo2 < 90 then "critical"
  else if spo2 < 95 then "low"
  else "normal"

/-- Risk level for blood pressure, mirroring `assessBloodPressureRisk`. -/
def assessBloodPressureRisk (systolic diastolic : ℚ) : String :=
  if systolic ≥ 180 ∨ diastolic ≥ 120 then "critical"
  else if systolic ≥ 160 ∨ diastolic ≥ 100 then "high"
  else if systolic ≥ 140 ∨ diastolic ≥ 90 then "moderate"
  else if systolic ≥ 120 ∨ diastolic ≥ 80 then "elevated"
  else "low"

/-- Risk level for heart rate, mirroring `assessHeartRateRisk`. -/
def assessHeartRateRisk (heartRate : ℚ) : String :=
  if heartRate < 40 ∨ heartRate > 140 then "critical"
  else if heartRate < 50 ∨ heartRate > 120 then "high"
  else if heartRate < 60 ∨ heartRate > 100 then "moderate"
  else "low"

/-- Risk level for temperature, mirroring `assessTemperatureRisk`. -/
def assessTemperatureRisk (temperature : ℚ) : String :=
  if temperature ≥ 105 then "critical"
  else if temperature ≥ 103 then "high"
  else if temperature ≥ 100.4 then "moderate"
  else "low"

/-- Risk level for oxygen saturation, mirroring `assessOxygenRisk`. -/
def assessOxygenRisk (spo2 : ℚ) : String :=
  if spo2 < 85 then "critical"
  else if spo2 < 90 then "high"
  else if spo2 < 95 then "moderate"
  else "low"

/-- Band rules exactly as the specification words them (refinement-side
definition, to be compared with `classifyBloodPressure`): crisis if systolic ≥
180 or diastolic ≥ 120, else high if systolic ≥ 130 or diastolic ≥ 80, else
elevated if 120 ≤ systolic < 130 and diastolic < 80, else normal. -/
def spec_bpBand (systolic diastolic : ℚ) : String :=
  if systolic ≥ 180 ∨ diastolic ≥ 120 then "crisis"
  else if systolic ≥ 130 ∨ diastolic ≥ 80 then "high"
  else if systolic ≥ 120 ∧ systolic < 130 ∧ diastolic < 80 then "elevated"
  else "normal"

/-- Severity order of blood-pressure bands: normal < elevated < high < crisis. -/
def bandRank : String → ℕ
  | "elevated" => 1
  | "high" => 2
  | "crisis" => 3
  | _ => 0

/-- Severity order of blood-pressure risk levels:
low < elevated < moderate < high < critical. -/
def riskRank : String → ℕ
  | "elevated" => 1
  | "moderate" => 2
  | "high" => 3
  | "critical" => 4
  | _ => 0

/-- Systolic/diastolic range pair of one blood-pressure band of the static
threshold table. -/
structure BPRanges where
  systolic : ℚ × ℚ
  diastolic : ℚ × ℚ

/-- The `bloodPressure` entry of the static threshold table. -/
structure BloodPressureTable where
  normal : BPRanges
  elevated : BPRanges
  high : BPRanges
  crisis : BPRanges

/-- The `heartRate` entry of the static threshold table. -/
structure HeartRateTable where
  normal : ℚ × ℚ
  bradycardia : ℚ × ℚ
  tachycardia : ℚ × ℚ

/-- The `temperature` entry of the static threshold table. -/
structure TemperatureTable where
  normal : ℚ × ℚ
  fever : ℚ × ℚ
  highFever : ℚ × ℚ

/-- The `oxygenSaturation` entry of the static threshold table. -/
structure OxygenSaturationTable where
  normal : ℚ × ℚ
  low : ℚ × ℚ
  critical : ℚ × ℚ

/-- The whole static threshold table returned by `initializeHealthThresholds`. -/
structure HealthThresholds where
  bloodPressure : BloodPressureTable
  heartRate : HeartRateTable
  temperature : TemperatureTable
  oxygenSaturation : OxygenSaturationTable

/-- The static threshold table, mirroring `initializeHealthThresholds`. -/
def initializeHealthThresholds : HealthThresholds :=
  { bloodPressure :=
      { normal := { systolic := (90, 120), diastolic := (60, 80) }
        elevated := { systolic := (120, 129), diastolic := (60, 80) }
        high := { systolic := (130, 180), diastolic := (80, 120) }
        crisis := { systolic := (180, 300), diastolic := (120, 200) } }
    heartRate :=
      { normal := (60, 100)
        bradycardia := (0, 60)
        tachycardia := (100, 200) }
    temperature :=
      { normal := (97.8, 99.0)
        fever := (99.1, 103.0)
        highFever := (103.1, 106.0) }
    oxygenSaturation :=
      { normal := (95, 100)
        low := (90, 95)
        critical := (0, 90) } }

/-- Membership of a value in a table range, reading both endpoints inclusively
(the most generous reading of the source's `[lo, hi]` pairs). -/
abbrev memIncl (v : ℚ) (r : ℚ × ℚ) : Prop := r.1 ≤ v ∧ v ≤ r.2

/-- Result record of `calculateTrend`: in the degenerate branch the source
returns an object without a `change` field, modelled as `none`. -/
structure TrendResult where
  direction : String
  slope : ℚ
  change : Option ℚ
deriving DecidableEq

/-- The filtered value list of `calculateTrend`: the source keeps the entries
that are neither `null` nor `undefined`, modelled as dropping `none`s. -/
def filteredVals (data : List (Option ℚ)) : List ℚ := data.filterMap id

/-- The index list `x = [0, 1, ..., n-1]` of `calculateTrend`. -/
def idx (n : ℕ) : List ℚ := (List.range n).map (fun i => (i : ℚ))

/-- The `reduce((a, b) => a + b, 0)` sums of `calculateTrend`. -/
def sumL (l : List ℚ) : ℚ := l.foldl (fun a b => a + b) 0

/-- The `sumXY` reduction of `calculateTrend`:
`x.reduce((sum, xi, i) => sum + xi * y[i], 0)`. -/
def sumXY (x y : List ℚ) : ℚ := (x.zip y).foldl (fun s p => s + p.1 * p.2) 0

/-- The `sumX2` reduction of `calculateTrend`:
`x.reduce((sum, xi) => sum + xi * xi, 0)`. -/
def sumSq (l : List ℚ) : ℚ := l.foldl (fun s xi => s + xi * xi) 0

/-- The slope expression of `calculateTrend`:
`(n * sumXY - sumX * sumY) / (n * sumX2 - sumX * sumX)`. -/
def slopeOf (values : List ℚ) : ℚ :=
  let n : ℚ := values.length
  let x : List ℚ := idx values.length
  (n * sumXY x values - sumL x * sumL values) / (n * sumSq x - sumL x * sumL x)

/-- The denominator of the slope expression of `calculateTrend`, as a function
of the number `n` of filtered values. -/
def trendDenom (n : ℕ) : ℚ :=
  (n : ℚ) * sumSq (idx n) - sumL (idx n) * sumL (idx n)

/-- Trend analysis, mirroring `calculateTrend`: filter the gaps out, return the
degenerate result below two values, otherwise regress against the index. -/
def calculateTrend (data : List (Option ℚ)) : TrendResult :=
  let values := filteredVals data
  if values.length < 2 then { direction := "stable", slope := 0, change := none }
  else
    let slope := slopeOf values
    { direction :=
        if slope > 0.1 then "increasing"
        else if slope < -0.1 then "decreasing"
        else "stable"
      slope := slope
      change := some (values.getLast! - values.head!) }

/-- Slope as the specification words it (refinement-side definition):
`(n * Sum(x*y) - Sum(x) * Sum(y)) / (n * Sum(x^2) - (Sum(x))^2)` over the
0-based index sequence, written with the standard list sums. -/
def spec_slope (values : List ℚ) : ℚ :=
  let n : ℚ := values.length
  let x : List ℚ := idx values.length
  (n * (List.zipWith (fun u v => u * v) x values).sum - x.sum * values.sum) /
    (n * (x.map (fun t => t * t)).sum - x.sum * x.sum)

/-! ## Helper lemmas -/

lemma foldl_add_eq (l : List ℚ) (a : ℚ) :
    l.foldl (fun x y => x + y) a = a + l.sum := by
  induction l generalizing a with
  | nil => simp
  | cons b t ih => simp only [List.foldl_cons, ih, List.sum_cons]; ring

lemma foldl_add_sq_eq (l : List ℚ) (a : ℚ) :
    l.foldl (fun s xi => s + xi * xi) a = a + (l.map (fun t => t * t)).sum := by
  induction l generalizing a with
  | nil => simp
  | cons b t ih =>
    simp only [List.foldl_cons, ih, List.map_cons, List.sum_cons]; ring

lemma foldl_add_zip_eq (x y : List ℚ) (a : ℚ) :
    (x.zip y).foldl (fun s p => s + p.1 * p.2) a =
      a + (List.zipWith (fun u v => u * v) x y).sum := by
  induction x generalizing y a with
  | nil => simp
  | cons b t ih =>
    cases y with
    | nil => simp
    | cons c u =>
      simp only [List.zip_cons_cons, List.foldl_cons, ih,
        List.zipWith_cons_cons, List.sum_cons]
      ring

lemma sumL_eq_sum (l : List ℚ) : sumL l = l.sum := by
  simp [sumL, foldl_add_eq]

lemma sumSq_eq_sum (l : List ℚ) : sumSq l = (l.map (fun t => t * t)).sum := by
  simp [sumSq, foldl_add_sq_eq]

lemma sumXY_eq_sum (x y : List ℚ) :
    sumXY x y = (List.zipWith (fun u v => u * v) x y).sum := by
  simp [sumXY, foldl_add_zip_eq]

lemma slopeOf_eq_spec_slope (values : List ℚ) :
    slopeOf values = spec_slope values := by
  simp only [slopeOf, spec_slope, sumL_eq_sum, sumSq_eq_sum, sumXY_eq_sum]

lemma idx_succ (n : ℕ) : idx (n + 1) = idx n ++ [(n : ℚ)] := by
  simp [idx, List.range_succ]

lemma idx_sum (n : ℕ) : (idx n).sum = (n : ℚ) * ((n : ℚ) - 1) / 2 := by
  induction n with
  | zero => simp [idx]
  | succ n ih =>
    rw [idx_succ, List.sum_append, ih]
    push_cast
    simp only [List.sum_cons, List.sum_nil]
    ring

lemma idx_map_sq_sum (n : ℕ) :
    ((idx n).map (fun t => t * t)).sum =
      (n : ℚ) * ((n : ℚ) - 1) * (2 * (n : ℚ) - 1) / 6 := by
  induction n with
  | zero => simp [idx]
  | succ n ih =>
    rw [idx_succ, List.map_append, List.sum_append, ih]
    push_cast
    simp only [List.map_cons, List.map_nil, List.sum_cons, List.sum_nil]
    ring

lemma trendDenom_eq (n : ℕ) :
    trendDenom n = (n : ℚ) ^ 2 * ((n : ℚ) ^ 2 - 1) / 12 := by
  simp only [trendDenom, sumL_eq_sum, sumSq_eq_sum, idx_sum, idx_map_sq_sum]
  ring

lemma trendDenom_ne_zero (n : ℕ) (h : 2 ≤ n) : trendDenom n ≠ 0 := by
  have h2 : (2 : ℚ) ≤ (n : ℚ) := by exact_mod_cast h
  rw [trendDenom_eq]
  have h3 : (4 : ℚ) ≤ (n : ℚ) ^ 2 := by nlinarith [sq_nonneg ((n : ℚ) - 2)]
  have h1 : (0 : ℚ) < (n : ℚ) ^ 2 * ((n : ℚ) ^ 2 - 1) :=
    mul_pos (by linarith) (by linarith)
  exact ne_of_gt (div_pos h1 (by norm_num))

lemma getLast!_eq_getLast (l : List ℚ) (h : l ≠ []) : l.getLast! = l.getLast h :=
  List.getLast!_of_getLast? (List.getLast?_eq_getLast l h)

lemma head!_eq_head (l : List ℚ) (h : l ≠ []) : l.head! = l.head h := by
  rw [List.head!_eq_head?, List.head?_eq_head h]

lemma classifyBloodPressure_eq_normal_iff (s d : ℚ) :
    classifyBloodPressure s d = "normal" ↔ s < 120 ∧ d < 80 := by
  unfold classifyBloodPressure
  split_ifs with h1 h2 h3
  · exact iff_of_false (by decide) (by rcases h1 with h | h <;> (rintro ⟨a, b⟩; linarith))
  · exact iff_of_false (by decide) (by rcases h2 with h | h <;> (rintro ⟨a, b⟩; linarith))
  · exact iff_of_false (by decide) (by rintro ⟨a, b⟩; linarith [h3.1])
  · push_neg at h2 h3
    refine iff_of_true rfl ⟨?_, h2.2⟩
    by_contra hc
    push_neg at hc
    linarith [h3 hc h2.1]

lemma assessBloodPressureRisk_eq_low_iff (s d : ℚ) :
    assessBloodPressureRisk s d = "low" ↔ s < 120 ∧ d < 80 := by
  unfold assessBloodPressureRisk
  split_ifs with h1 h2 h3 h4
  · exact iff_of_false (by decide) (by rcases h1 with h | h <;> (rintro ⟨a, b⟩; linarith))
  · exact iff_of_false (by decide) (by rcases h2 with h | h <;> (rintro ⟨a, b⟩; linarith))
  · exact iff_of_false (by decide) (by rcases h3 with h | h <;> (rintro ⟨a, b⟩; linarith))
  · exact iff_of_false (by decide) (by rcases h4 with h | h <;> (rintro ⟨a, b⟩; linarith))
  · push_neg at h4
    exact iff_of_true rfl h4

lemma classifyHeartRate_eq_normal_iff (v : ℚ) :
    classifyHeartRate v = "normal" ↔ 60 ≤ v ∧ v ≤ 100 := by
  unfold classifyHeartRate
  split_ifs with h1 h2
  · exact iff_of_false (by decide) (by rintro ⟨a, b⟩; linarith)
  · exact iff_of_false (by decide) (by rintro ⟨a, b⟩; linarith)
  · push_neg at h1 h2
    exact iff_of_true rfl ⟨h1, h2⟩

lemma assessHeartRateRisk_eq_low_iff (v : ℚ) :
    assessHeartRateRisk v = "low" ↔ 60 ≤ v ∧ v ≤ 100 := by
  unfold assessHeartRateRisk
  split_ifs with h1 h2 h3
  · exact iff_of_false (by decide) (by rcases h1 with h | h <;> (rintro ⟨a, b⟩; linarith))
  · exact iff_of_false (by decide) (by rcases h2 with h | h <;> (rintro ⟨a, b⟩; linarith))
  · exact iff_of_false (by decide) (by rcases h3 with h | h <;> (rintro ⟨a, b⟩; linarith))
  · push_neg at h3
    exact iff_of_true rfl h3

lemma ladder3_mono {p1 q1 r1 p2 q2 r2 : Prop}
    [Decidable p1] [Decidable q1] [Decidable r1]
    [Decidable p2] [Decidable q2] [Decidable r2]
    (hp : p1 → p2) (hq : q1 → q2) (hr : ¬ p2 → ¬ q2 → r1 → r2) :
    (if p1 then (3 : ℕ) else if q1 then 2 else if r1 then 1 else 0) ≤
      (if p2 then 3 else if q2 then 2 else if r2 then 1 else 0) := by
  split_ifs <;> first | omega | tauto

lemma ladder4_mono {p1 q1 r1 t1 p2 q2 r2 t2 : Prop}
    [Decidable p1] [Decidable q1] [Decidable r1] [Decidable t1]
    [Decidable p2] [Decidable q2] [Decidable r2] [Decidable t2]
    (hp : p1 → p2) (hq : q1 → q2) (hr : r1 → r2) (ht : t1 → t2) :
    (if p1 then (4 : ℕ) else if q1 then 3 else if r1 then 2 else if t1 then 1 else 0) ≤
      (if p2 then 4 else if q2 then 3 else if r2 then 2 else if t2 then 1 else 0) := by
  split_ifs <;> first | omega | tauto

lemma bandRank_classifyBloodPressure (s d : ℚ) :
    bandRank (classifyBloodPressure s d) =
      if s ≥ 180 ∨ d ≥ 120 then 3
      else if s ≥ 130 ∨ d ≥ 80 then 2
      else if s ≥ 120 ∧ s < 130 ∧ d < 80 then 1
      else 0 := by
  unfold classifyBloodPressure
  split_ifs <;> rfl

lemma riskRank_assessBloodPressureRisk (s d : ℚ) :
    riskRank (assessBloodPressureRisk s d) =
      if s ≥ 180 ∨ d ≥ 120 then 4
      else if s ≥ 160 ∨ d ≥ 100 then 3
      else if s ≥ 140 ∨ d ≥ 90 then 2
      else if s ≥ 120 ∨ d ≥ 80 then 1
      else 0 := by
  unfold assessBloodPressureRisk
  split_ifs <;> rfl

/-! ## Claim theorems -/

/-- C1: `classifyBloodPressure` implements exactly the first-match-wins band
rules the specification states (formalised as `spec_bpBand`), and every pair at
or above a crisis threshold (systolic ≥ 180 or diastolic ≥ 120) gets band
"crisis" and risk "critical". -/
theorem C1_bp_band_rules (s d : ℚ) :
    classifyBloodPressure s d = spec_bpBand s d ∧
      ((s ≥ 180 ∨ d ≥ 120) →
        classifyBloodPressure s d = "crisis" ∧
          assessBloodPressureRisk s d = "critical") := by
  refine ⟨rfl, fun hcrit => ?_⟩
  unfold classifyBloodPressure assessBloodPressureRisk
  rw [if_pos hcrit, if_pos hcrit]
  exact ⟨rfl, rfl⟩

/-- C4: boundary exactness of the single-value classifiers: heart rate 60 is
"normal" while 59 is "bradycardia"; temperature 99.1 is "fever" while 99.0 is
"normal"; oxygen saturation 95 is "normal" while 94 is "low". -/
theorem C4_boundary_exactness :
    classifyHeartRate 60 = "normal" ∧ classifyHeartRate 59 = "bradycardia" ∧
      classifyTemperature 99.1 = "fever" ∧ classifyTemperature 99.0 = "normal" ∧
      classifyOxygenSaturation 95 = "normal" ∧
      classifyOxygenSaturation 94 = "low" := by
  refine ⟨?_, ?_, ?_, ?_, ?_, ?_⟩ <;>
    norm_num [classifyHeartRate, classifyTemperature, classifyOxygenSaturation]

/-- C5: increasing the systolic value while holding the diastolic value fixed
never decreases the band (normal < elevated < high < crisis) nor the risk
(low < elevated < moderate < high < critical) of a blood-pressure reading. -/
theorem C5_monotone_in_systolic (s1 s2 d : ℚ) (h : s1 ≤ s2) :
    bandRank (classifyBloodPressure s1 d) ≤ bandRank (classifyBloodPressure s2 d) ∧
      riskRank (assessBloodPressureRisk s1 d) ≤
        riskRank (assessBloodPressureRisk s2 d) := by
  constructor
  · rw [bandRank_classifyBloodPressure, bandRank_classifyBloodPressure]
    refine ladder3_mono ?_ ?_ ?_
    · exact fun hp => hp.imp (fun hs => le_trans hs h) id
    · exact fun hq => hq.imp (fun hs => le_trans hs h) id
    · intro hnp2 hnq2 hr1
      push_neg at hnq2
      exact ⟨le_trans hr1.1 h, hnq2.1, hnq2.2⟩
  · rw [riskRank_assessBloodPressureRisk, riskRank_assessBloodPressureRisk]
    exact ladder4_mono (Or.imp (fun hs => le_trans hs h) id)
      (Or.imp (fun hs => le_trans hs h) id)
      (Or.imp (fun hs => le_trans hs h) id)
      (Or.imp (fun hs => le_trans hs h) id)

/-- C5 witness: the monotonicity theorem applied at systolic 100 ≤ 150 with
diastolic 70. -/
theorem C5_monotone_in_systolic_witness :
    bandRank (classifyBloodPressure 100 70) ≤ bandRank (classifyBloodPressure 150 70) ∧
      riskRank (assessBloodPressureRisk 100 70) ≤
        riskRank (assessBloodPressureRisk 150 70) :=
  C5_monotone_in_systolic 100 150 70 (by norm_num)

/-- C6 counterexample: the input systolic = -1 is outside the expected range
[0, 300], yet the band returned is "normal", not the most severe band
"crisis" — the claim as stated fails for below-range inputs. -/
theorem C6_counterexample :
    ((-1 : ℚ) < 0) ∧ classifyBloodPressure (-1) 50 = "normal" := by
  refine ⟨by norm_num, ?_⟩
  norm_num [classifyBloodPressure]

/-- C6 amended: no error is raised for any input (the classifier is a total
function), and a reading with systolic or diastolic ABOVE the expected range
(exceeding 300) does land in the most severe band "crisis"; below-range inputs
simply classify through the same rules (and can come out "normal"). -/
theorem C6_above_range_crisis (s d : ℚ) (h : 300 < s ∨ 300 < d) :
    classifyBloodPressure s d = "crisis" := by
  have hc : s ≥ 180 ∨ d ≥ 120 := by
    rcases h with h | h
    · exact Or.inl (by linarith)
    · exact Or.inr (by linarith)
  unfold classifyBloodPressure
  rw [if_pos hc]

/-- C6 witness: the amended theorem applied at systolic 301, diastolic 50. -/
theorem C6_above_range_crisis_witness :
    classifyBloodPressure 301 50 = "crisis" :=
  C6_above_range_crisis 301 50 (Or.inl (by norm_num))

/-- C7 counterexample: the claimed reading does not exist — no blood-pressure
pair whatsoever has band "normal" together with risk "elevated", because band
"normal" and risk "low" both hold exactly when systolic < 120 and
diastolic < 80. -/
theorem C7_counterexample :
    (∃ s d : ℚ, classifyBloodPressure s d = "normal" ∧
        assessBloodPressureRisk s d = "elevated") ↔ False := by
  simp only [iff_false]
  rintro ⟨s, d, hb, hr⟩
  rw [classifyBloodPressure_eq_normal_iff] at hb
  rw [(assessBloodPressureRisk_eq_low_iff s d).mpr hb] at hr
  exact absurd hr (by decide)

/-- C7 amended: the band and risk tables do disagree in granularity at a
reading with systolic 125 — at 125/85 the band is "high" while the risk is only
"elevated" — but band "normal" never pairs with risk "elevated": band "normal"
holds exactly when risk is "low". -/
theorem C7_band_risk_granularity :
    classifyBloodPressure 125 85 = "high" ∧
      assessBloodPressureRisk 125 85 = "elevated" ∧
      ∀ s d : ℚ,
        (classifyBloodPressure s d = "normal" ↔
          assessBloodPressureRisk s d = "low") := by
  refine ⟨by norm_num [classifyBloodPressure],
    by norm_num [assessBloodPressureRisk], fun s d => ?_⟩
  rw [classifyBloodPressure_eq_normal_iff, assessBloodPressureRisk_eq_low_iff]

/-- C10: for every heart rate the band is "normal" exactly when the risk is
"low", and both hold exactly on the interval 60 ≤ h ≤ 100 — for heart rate the
band and risk labels never disagree about normality. -/
theorem C10_hr_band_normal_iff_risk_low (v : ℚ) :
    (classifyHeartRate v = "normal" ↔ assessHeartRateRisk v = "low") ∧
      (classifyHeartRate v = "normal" ↔ (60 ≤ v ∧ v ≤ 100)) := by
  refine ⟨?_, classifyHeartRate_eq_normal_iff v⟩
  rw [classifyHeartRate_eq_normal_iff, assessHeartRateRisk_eq_low_iff]

/-- C3: whenever fewer than two valid values remain after filtering out the
null/undefined entries, `calculateTrend` returns the degenerate result:
direction "stable", slope 0, and no change value. -/
theorem C3_degenerate_result (data : List (Option ℚ))
    (h : (data.filterMap id).length < 2) :
    calculateTrend data = { direction := "stable", slope := 0, change := none } := by
  simp only [calculateTrend, filteredVals]
  rw [if_pos h]

/-- C3 witness: the degenerate result on the empty sequence and on the
singleton [5]. -/
theorem C3_degenerate_result_witness :
    calculateTrend ([] : List (Option ℚ)) =
        { direction := "stable", slope := 0, change := none } ∧
      calculateTrend [some (5 : ℚ)] =
        { direction := "stable", slope := 0, change := none } :=
  ⟨C3_degenerate_result [] (by decide), C3_degenerate_result [some 5] (by decide)⟩

/-- C8 counterexample: the bands of the static threshold table are not
contiguous and do not cover the domain — temperature 99.05 lies strictly
between the "normal" range [97.8, 99.0] and the "fever" range [99.1, 103.0],
so it belongs to no temperature band even when every endpoint is read
inclusively. -/
theorem C8_counterexample :
    ¬ memIncl 99.05 initializeHealthThresholds.temperature.normal ∧
      ¬ memIncl 99.05 initializeHealthThresholds.temperature.fever ∧
      ¬ memIncl 99.05 initializeHealthThresholds.temperature.highFever := by
  refine ⟨?_, ?_, ?_⟩ <;> norm_num [memIncl, initializeHealthThresholds]

/-- C8 amended: in the static threshold table adjacent bands share their
boundary values (heart rate 60 lies in both "bradycardia" [0, 60] and "normal"
[60, 100]), the bands leave parts of the physiological domain uncovered
(temperature 97.0 below every band), and the most severe bands are bounded
rather than open-ended (temperature 107 and heart rate 250 lie in no band). -/
theorem C8_table_facts :
    (memIncl 60 initializeHealthThresholds.heartRate.bradycardia ∧
      memIncl 60 initializeHealthThresholds.heartRate.normal) ∧
    (¬ memIncl 97.0 initializeHealthThresholds.temperature.normal ∧
      ¬ memIncl 97.0 initializeHealthThresholds.temperature.fever ∧
      ¬ memIncl 97.0 initializeHealthThresholds.temperature.highFever) ∧
    (¬ memIncl 107 initializeHealthThresholds.temperature.normal ∧
      ¬ memIncl 107 initializeHealthThresholds.temperature.fever ∧
      ¬ memIncl 107 initializeHealthThresholds.temperature.highFever) ∧
    (¬ memIncl 250 initializeHealthThresholds.heartRate.bradycardia ∧
      ¬ memIncl 250 initializeHealthThresholds.heartRate.normal ∧
      ¬ memIncl 250 initializeHealthThresholds.heartRate.tachycardia) := by
  refine ⟨⟨?_, ?_⟩, ⟨?_, ?_, ?_⟩, ⟨?_, ?_, ?_⟩, ⟨?_, ?_, ?_⟩⟩ <;>
    norm_num [memIncl, initializeHealthThresholds]

/-- C9: every numeric input resolves to one of the fixed band and risk labels
(the classifiers are total and return no other value), and the slope
denominator `n * Sum(x^2) - (Sum(x))^2` of `calculateTrend` is nonzero whenever
at least two values survive the filtering, so the division it guards is never a
division by zero. -/
theorem C9_totality_no_zero_denominator :
    (∀ s d : ℚ,
        classifyBloodPressure s d ∈ (["crisis", "high", "elevated", "normal"] : List String) ∧
          assessBloodPressureRisk s d ∈
            (["critical", "high", "moderate", "elevated", "low"] : List String)) ∧
    (∀ v : ℚ,
        classifyHeartRate v ∈ (["bradycardia", "tachycardia", "normal"] : List String) ∧
          assessHeartRateRisk v ∈ (["critical", "high", "moderate", "low"] : List String)) ∧
    (∀ v : ℚ,
        classifyTemperature v ∈ (["highFever", "fever", "normal"] : List String) ∧
          assessTemperatureRisk v ∈ (["critical", "high", "moderate", "low"] : List String)) ∧
    (∀ v : ℚ,
        classifyOxygenSaturation v ∈ (["critical", "low", "normal"] : List String) ∧
          assessOxygenRisk v ∈ (["critical", "high", "moderate", "low"] : List String)) ∧
    ∀ data : List (Option ℚ), 2 ≤ (data.filterMap id).length →
      trendDenom (data.filterMap id).length ≠ 0 := by
  refine ⟨fun s d => ⟨?_, ?_⟩, fun v => ⟨?_, ?_⟩, fun v => ⟨?_, ?_⟩,
    fun v => ⟨?_, ?_⟩, fun data hd => trendDenom_ne_zero _ hd⟩ <;>
  · first
    | (unfold classifyBloodPressure; split_ifs <;> simp)
    | (unfold assessBloodPressureRisk; split_ifs <;> simp)
    | (unfold classifyHeartRate; split_ifs <;> simp)
    | (unfold assessHeartRateRisk; split_ifs <;> simp)
    | (unfold classifyTemperature; split_ifs <;> simp)
    | (unfold assessTemperatureRisk; split_ifs <;> simp)
    | (unfold classifyOxygenSaturation; split_ifs <;> simp)
    | (unfold assessOxygenRisk; split_ifs <;> simp)

/-- C2: on every input with at least two valid values after filtering,
`calculateTrend` returns the closed-form least-squares slope over the 0-based
index sequence (formalised as `spec_slope`), the change is the last minus the
first raw filtered value, and the direction is "increasing" exactly when the
slope exceeds 1/10, "decreasing" exactly when it is below -1/10, and "stable"
otherwise; in particular [10, 20, 30] gives slope 10 / "increasing" / change 20
and [30, 20, 10] gives slope -10 / "decreasing" / change -20. -/
theorem C2_trend_regression (data : List (Option ℚ))
    (h : 2 ≤ (data.filterMap id).length) :
    ((calculateTrend data).slope = spec_slope (data.filterMap id) ∧
      (∃ hne : data.filterMap id ≠ [],
        (calculateTrend data).change =
          some ((data.filterMap id).getLast hne - (data.filterMap id).head hne)) ∧
      ((calculateTrend data).direction = "increasing" ↔
        1 / 10 < spec_slope (data.filterMap id)) ∧
      ((calculateTrend data).direction = "decreasing" ↔
        spec_slope (data.filterMap id) < -(1 / 10)) ∧
      ((calculateTrend data).direction = "stable" ↔
        (-(1 / 10) ≤ spec_slope (data.filterMap id) ∧
          spec_slope (data.filterMap id) ≤ 1 / 10))) ∧
    calculateTrend [some 10, some 20, some 30] =
      { direction := "increasing", slope := 10, change := some 20 } ∧
    calculateTrend [some 30, some 20, some 10] =
      { direction := "decreasing", slope := -10, change := some (-20) } := by
  have hne : data.filterMap id ≠ [] := by
    intro he
    rw [he] at h
    simp at h
  have hnl : ¬ (filteredVals data).length < 2 := by
    simp only [filteredVals]
    omega
  have hct : calculateTrend data =
      { direction :=
          if slopeOf (filteredVals data) > 0.1 then "increasing"
          else if slopeOf (filteredVals data) < -0.1 then "decreasing"
          else "stable"
        slope := slopeOf (filteredVals data)
        change := some ((filteredVals data).getLast! - (filteredVals data).head!) } := by
    simp only [calculateTrend]
    rw [if_neg hnl]
  have hsp : slopeOf (filteredVals data) = spec_slope (data.filterMap id) :=
    slopeOf_eq_spec_slope _
  have e1 : (0.1 : ℚ) = 1 / 10 := by norm_num
  have e2 : (-0.1 : ℚ) = -(1 / 10) := by norm_num
  refine ⟨⟨?_, ⟨hne, ?_⟩, ?_, ?_, ?_⟩, ?_, ?_⟩
  · rw [hct]
    exact hsp
  · rw [hct]
    simp only [filteredVals]
    rw [getLast!_eq_getLast _ hne, head!_eq_head _ hne]
  · rw [hct]
    simp only [hsp, e1, e2]
    split_ifs with h1 h2
    · exact iff_of_true rfl h1
    · exact iff_of_false (by decide) h1
    · exact iff_of_false (by decide) h1
  · rw [hct]
    simp only [hsp, e1, e2]
    split_ifs with h1 h2
    · exact iff_of_false (by decide) (by intro hc; linarith)
    · exact iff_of_true rfl h2
    · exact iff_of_false (by decide) h2
  · rw [hct]
    simp only [hsp, e1, e2]
    split_ifs with h1 h2
    · exact iff_of_false (by decide) (by rintro ⟨a, b⟩; linarith)
    · exact iff_of_false (by decide) (by rintro ⟨a, b⟩; linarith)
    · push_neg at h1 h2
      exact iff_of_true rfl ⟨h2, h1⟩
  · norm_num [calculateTrend, filteredVals, slopeOf, idx, sumL, sumXY, sumSq,
      List.range, List.range.loop, List.filterMap_cons, List.getLast!, List.getLast?]
  · norm_num [calculateTrend, filteredVals, slopeOf, idx, sumL, sumXY, sumSq,
      List.range, List.range.loop, List.filterMap_cons, List.getLast!, List.getLast?]

/-- C2 witness: the regression theorem applied at the concrete input
[10, 20, 30]. -/
theorem C2_trend_regression_witness :
    (calculateTrend [some 10, some 20, some 30]).slope =
      spec_slope (([some 10, some 20, some 30] : List (Option ℚ)).filterMap id) :=
  (C2_trend_regression [some 10, some 20, some 30] (by decide)).1.1
